import Mathlib

/-!
Verification of the summary loader and presentation layer of `analyzer.py`
(class `InteractiveAnalyzer`).

The Python program is shallowly embedded:

* Python strings are Lean `String`s; the string primitives the code uses
  (`split('_')`, slicing `s[a:b]`, `s[:-5]`, `os.path.basename`, and the
  built-in lexicographic-by-code-point comparison that `list.sort` applies
  to string keys) are re-implemented below as structurally recursive
  functions on the character list, so that every definition evaluates by
  kernel reduction.
* The filesystem is abstracted as the list of `FileInput`s that
  `glob.glob(os.path.join(directory, "SUMMARY_*.json"))` would return, in
  enumeration order.  Reading and JSON-parsing a file either raises (an
  `Exception` caught by the `try`) or yields a JSON object; this is
  modelled as `parse : Option SummaryDoc`.  Hypotheses about the glob
  pattern (`SUMMARY_` prefix, `.json` suffix) are stated per theorem.
* A JSON object is modelled as its insertion-ordered association list of
  fields; `dict.get(key, default)` and `dict[key]` become `dictGet` /
  `lookupField`.  The two numeric fields the code reads are modelled
  as rationals.
* `list.sort(key=..., reverse=True)` is Python's stable descending sort;
  it is modelled as `List.insertionSort` with the relation
  "my key is ≥ the other key", which is stable with respect to the same
  total preorder and hence produces the identical list.
  `pandas.DataFrame.sort_values` (used only for the two overview charts,
  whose tie order the code does not rely on) is modelled the same way.
* `print` logging is collected in a `log : List String` field; the
  interpolated text of a caught exception is abstracted away, the rest of
  each message is kept verbatim.
-/

namespace Analyzer

/-- Python string comparison step: lexicographic ordering of two character
lists by code point, as `≤`.  This is the comparison `list.sort` applies to
the string sort keys. -/
def charListLe : List Char → List Char → Bool
  | [], _ => true
  | _ :: _, [] => false
  | a :: as, b :: bs => if a < b then true else if b < a then false else charListLe as bs

/-- Python `s <= t` on strings: lexicographic by code point. -/
def pyStrLe (s t : String) : Bool :=
  charListLe s.toList t.toList

/-- Python single-character `str.split`: `"a__b".split('_') == ['a','','b']`,
`"".split('_') == ['']`. -/
def splitChar (sep : Char) : List Char → List (List Char)
  | [] => [[]]
  | c :: cs =>
    let rest := splitChar sep cs
    if c = sep then [] :: rest
    else
      match rest with
      | [] => [[c]]
      | r :: rs => (c :: r) :: rs

/-- Python `s.split(sep)` for a one-character separator. -/
def pySplit (s : String) (sep : Char) : List String :=
  (splitChar sep s.toList).map List.asString

/-- Python slice `s[a:b]` for non-negative bounds (clamping past the end). -/
def pySlice (s : String) (a b : Nat) : String :=
  ((s.toList.drop a).take (b - a)).asString

/-- Python `s[:-n]`: all but the last `n` characters. -/
def pyDropRight (s : String) (n : Nat) : String :=
  (s.toList.take (s.toList.length - n)).asString

/-- Python `os.path.basename` on POSIX paths: the part after the last slash. -/
def basename (p : String) : String :=
  (pySplit p '/').getLastD ""

/-- Boolean test that `suffix` ends `s` (the `SUMMARY_*.json` glob suffix). -/
def strEndsWith (s suffix : String) : Bool :=
  suffix.toList.isSuffixOf s.toList

/-- Boolean test that `pre` begins `s` (the `SUMMARY_*.json` glob stem). -/
def strStartsWith (s pre : String) : Bool :=
  pre.toList.isPrefixOf s.toList

/-- A parsed top-level JSON object of a summary file, as its ordered field
list; only the two numeric fields the loader reads are relevant, so field
values are rationals. -/
structure SummaryDoc where
  fields : List (String × Rat)
deriving DecidableEq, Repr

/-- One file returned by the glob: its path, and the outcome of
`open` + `json.load` on it (`none` models a raised, caught exception;
`some doc` a successful parse to an object). -/
structure FileInput where
  filepath : String
  parse : Option SummaryDoc
deriving DecidableEq, Repr

/-- One element of `self.summaries_data`: the dictionary appended by
`load_all_summaries` for a successfully processed file. -/
structure SummaryRecord where
  filepath : String
  session_id : String
  timestamp : String
  total_dpav : Rat
  total_av : Rat
deriving DecidableEq, Repr

/-- Python `dict.get(key, default)` on a JSON object. -/
def dictGet (fields : List (String × Rat)) (key : String) (default : Rat) : Rat :=
  match fields.find? (fun kv => kv.1 = key) with
  | some kv => kv.2
  | none => default

/-- Lookup of a key in a JSON object, `none` when absent (so `dict[key]`
raises exactly when this is `none`). -/
def lookupField (fields : List (String × Rat)) (key : String) : Option Rat :=
  (fields.find? (fun kv => kv.1 = key)).map (fun kv => kv.2)

/-- Lines 34-48 of `analyzer.py`: from the basename of a summary file,
derive the pair `(session_id, timestamp_str)`.  `parts` is
`filename[:-5].split('_')`; with at least 6 parts the label and key are
built from `parts[1]`, `parts[2]`, `parts[4]`, `parts[5]`, otherwise the
raw filename and `"0"` are kept. -/
def parseFilename (filename : String) : String × String :=
  let parts := pySplit (pyDropRight filename 5) '_'
  if 6 ≤ parts.length then
    let team_name := parts.getD 1 ""
    let battle_mode := parts.getD 2 ""
    let time_part := parts.getD 5 ""
    let date_part := parts.getD 4 ""
    let date_str := pySlice date_part 0 4 ++ "-" ++ pySlice date_part 4 6 ++ "-" ++ pySlice date_part 6 8
    let time_str := pySlice time_part 0 2 ++ ":" ++ pySlice time_part 2 4 ++ ":" ++ pySlice time_part 4 6
    (team_name ++ " [" ++ battle_mode ++ "] - " ++ date_str ++ " " ++ time_str,
      date_part ++ time_part)
  else
    (filename, "0")

/-- The body of the per-file `try` block (lines 33-59): produce the record
for one file, or `none` when reading/parsing raised (the filename-derived
fields can never raise, so the failure point is exactly `open`/`json.load`). -/
def processFile (fi : FileInput) : Option SummaryRecord :=
  match fi.parse with
  | none => none
  | some doc =>
    let filename := basename fi.filepath
    let st := parseFilename filename
    some { filepath := fi.filepath
           session_id := st.1
           timestamp := st.2
           total_dpav := dictGet doc.fields "total_dpav" 0
           total_av := dictGet doc.fields "total_av" 0 }

/-- The sort relation of line 63, `all_data.sort(key=lambda x: x['timestamp'],
reverse=True)`: record `a` may precede record `b` when `b`'s timestamp key is
`≤` `a`'s (descending). -/
def tsDesc (a b : SummaryRecord) : Prop :=
  pyStrLe b.timestamp a.timestamp = true

instance : DecidableRel tsDesc :=
  fun a b => inferInstanceAs (Decidable (_ = true))

/-- The value returned by `load_all_summaries` plus the console messages it
printed. -/
structure LoadResult where
  result : Option (List SummaryRecord)
  log : List String
deriving DecidableEq, Repr

/-- The message printed when the glob matches nothing. -/
def noFilesMsg (directory : String) : String :=
  "No summary files found in \x27" ++ directory ++ "\x27."

/-- The message printed before processing begins. -/
def foundMsg (n : Nat) : String :=
  "Found " ++ toString n ++ " summary files. Processing..."

/-- The per-file error messages of line 61 (exception text abstracted). -/
def fileLogs (files : List FileInput) : List String :=
  files.filterMap (fun fi =>
    match fi.parse with
    | none => some ("Error processing file " ++ fi.filepath)
    | some _ => none)

/-- `InteractiveAnalyzer.load_all_summaries` (lines 23-64): with no matching
files, report and return `None`; otherwise build a record per readable file,
then stable-sort descending by timestamp key and return the list. -/
def load_all_summaries (directory : String) (files : List FileInput) : LoadResult :=
  if files.length = 0 then
    { result := none, log := [noFilesMsg directory] }
  else
    let all_data := files.filterMap processFile
    let sorted := if all_data.isEmpty then all_data else all_data.insertionSort tsDesc
    { result := some sorted
      log := foundMsg files.length :: fileLogs files }

/-- Python truthiness of `self.summaries_data` (`None` and `[]` are falsy). -/
def pyTruthy : Option (List SummaryRecord) → Bool
  | none => false
  | some [] => false
  | some (_ :: _) => true

/-- Scan for the first occurrence of (non-empty) `pat` and substitute `repl`. -/
def replaceFirstAux (pat repl : List Char) : List Char → List Char
  | [] => []
  | c :: cs =>
    if pat.isPrefixOf (c :: cs) then repl ++ (c :: cs).drop pat.length
    else c :: replaceFirstAux pat repl cs

/-- Python `s.replace(old, new, 1)`: replace only the first occurrence. -/
def replaceFirst (s pat repl : String) : String :=
  (replaceFirstAux pat.toList repl.toList s.toList).asString

/-- Pandas `Series.max()` over the plotted column (the column is non-empty
whenever it is used, since plotting is guarded by `if self.summaries_data`). -/
def listMax : List Rat → Option Rat
  | [] => none
  | x :: xs => some (xs.foldl max x)

/-- The sort relation of `df.sort_values(by="total_dpav", ascending=False)`. -/
def dpavDesc (a b : SummaryRecord) : Prop :=
  b.total_dpav ≤ a.total_dpav

instance : DecidableRel dpavDesc :=
  fun a b => inferInstanceAs (Decidable (_ ≤ _))

/-- The sort relation of `df.sort_values(by="total_av", ascending=True)`. -/
def avAsc (a b : SummaryRecord) : Prop :=
  a.total_av ≤ b.total_av

instance : DecidableRel avAsc :=
  fun a b => inferInstanceAs (Decidable (_ ≤ _))

/-- Everything `create_comparison_plots` (lines 124-168) passes to the two
bar charts: for each chart the sorted row order, the bar colors, the x
labels, the plotted values and the `set_ylim(top=...)` argument (absent when
the frame is empty, since the call is guarded by `if not df.empty`). -/
structure ComparisonPlots where
  df_dpav_sorted : List SummaryRecord
  dpav_colors : List String
  labels_dpav : List String
  dpav_values : List Rat
  dpav_ylim_top : Option Rat
  df_av_sorted : List SummaryRecord
  av_colors : List String
  labels_av : List String
  av_values : List Rat
  av_ylim_top : Option Rat
deriving DecidableEq, Repr

/-- `InteractiveAnalyzer.create_comparison_plots` (lines 124-168), applied to
`self.summaries_data`.  `iloc[0]` on an empty frame would raise, which the
code avoids by testing emptiness; `best_... = None` is modelled as `none`,
and the color comparison `session == best` is string-vs-`Option` equality. -/
def create_comparison_plots (records : List SummaryRecord) : ComparisonPlots :=
  let df_dpav_sorted := records.insertionSort dpavDesc
  let best_dpav_session : Option String := df_dpav_sorted.head?.map (fun r => r.session_id)
  let dpav_colors := df_dpav_sorted.map (fun r =>
    if some r.session_id = best_dpav_session then "gold" else "skyblue")
  let labels_dpav := df_dpav_sorted.map (fun r => replaceFirst r.session_id " - " "\n")
  let dpav_values := df_dpav_sorted.map (fun r => r.total_dpav)
  let df_av_sorted := records.insertionSort avAsc
  let best_av_session : Option String := df_av_sorted.head?.map (fun r => r.session_id)
  let av_colors := df_av_sorted.map (fun r =>
    if some r.session_id = best_av_session then "limegreen" else "lightcoral")
  let labels_av := df_av_sorted.map (fun r => replaceFirst r.session_id " - " "\n")
  let av_values := df_av_sorted.map (fun r => r.total_av)
  { df_dpav_sorted := df_dpav_sorted
    dpav_colors := dpav_colors
    labels_dpav := labels_dpav
    dpav_values := dpav_values
    dpav_ylim_top := (listMax dpav_values).map (fun m => m * (13 / 10 : Rat))
    df_av_sorted := df_av_sorted
    av_colors := av_colors
    labels_av := labels_av
    av_values := av_values
    av_ylim_top := (listMax av_values).map (fun m => m * (13 / 10 : Rat)) }

/-- The outcome of `InteractiveAnalyzer.__init__` + `create_widgets` as far
as data flow is concerned: the stored record list, the console log, whether
the "No summary files found." placeholder label is shown, and the comparison
charts (rendered only when `self.summaries_data` is truthy). -/
structure InitResult where
  summaries_data : Option (List SummaryRecord)
  log : List String
  placeholder_shown : Bool
  comparison : Option ComparisonPlots
deriving DecidableEq, Repr

/-- Lines 12-21 and 66-75 of `analyzer.py`: load, then render placeholder or
charts according to the truthiness of the loaded list. -/
def analyzer_init (directory : String) (files : List FileInput) : InitResult :=
  let L := load_all_summaries directory files
  { summaries_data := L.result
    log := L.log
    placeholder_shown := !pyTruthy L.result
    comparison :=
      if pyTruthy L.result then some (create_comparison_plots (L.result.getD [])) else none }

/-- One entry of the `characters` object of a detail document, as its
ordered field list (`total_damage` and possibly others). -/
structure CharEntry where
  fields : List (String × Rat)
deriving DecidableEq, Repr

/-- The full JSON document read by `show_detail_window`; `team_name` and
`characters` are `none` when the corresponding top-level key is absent
(`dict.get` then substitutes the default). -/
structure DetailDoc where
  team_name : Option String
  characters : Option (List (String × CharEntry))
deriving DecidableEq, Repr

/-- The detail `Toplevel` window contents: title, pie/bar labels, the
per-character damages, and the bar chart `set_ylim(top=...)` argument. -/
structure DetailWindow where
  title : String
  suptitle : String
  char_names : List String
  char_damages : List Rat
  ylim_top : Option Rat
deriving DecidableEq, Repr

/-- The application state the detail handler can touch: the loaded record
list and the detail windows opened so far. -/
structure AppState where
  summaries_data : Option (List SummaryRecord)
  detail_windows : List DetailWindow
deriving DecidableEq, Repr

/-- The state and console log after a detail-handler invocation returns
normally. -/
structure DetailOutcome where
  state : AppState
  log : List String
deriving DecidableEq, Repr

/-- The list comprehension `[d['total_damage'] for d in characters.values()]`
(line 191): all damages in order, or `none` as soon as one entry lacks the
key (a `KeyError`). -/
def collectDamages : List (String × CharEntry) → Option (List Rat)
  | [] => some []
  | (_, e) :: rest =>
    match lookupField e.fields "total_damage" with
    | none => none
    | some d => (collectDamages rest).map (fun ds => d :: ds)

/-- `InteractiveAnalyzer.show_detail_window` (lines 170-208).  The `try`
covers only the `open`/`json.load` of lines 172-173 (`readResult = none`
models that failure: caught, logged, early return, state unchanged).  Every
later step runs outside any handler, so a character entry without
`total_damage` raises a `KeyError` that propagates out of the method,
modelled as `Except.error`.  (The blank `Toplevel` created at line 178
before the failing comprehension is not modelled; only the raised exception
is.) -/
def show_detail_window (st : AppState) (summary_info : SummaryRecord)
    (readResult : Option DetailDoc) : Except String DetailOutcome :=
  match readResult with
  | none => Except.ok { state := st, log := ["Could not open detail file"] }
  | some data =>
    let characters := data.characters.getD []
    let char_names := characters.map (fun p => p.1)
    match collectDamages characters with
    | none => Except.error "KeyError: \x27total_damage\x27"
    | some char_damages =>
      let max_dmg := listMax char_damages
      Except.ok
        { state :=
            { st with
              detail_windows := st.detail_windows ++
                [{ title := "Team Detail: " ++ summary_info.session_id
                   suptitle := "Battle Analysis for " ++ (data.team_name.getD "Unknown") ++ " Team"
                   char_names := char_names
                   char_damages := char_damages
                   ylim_top := max_dmg.map (fun m => m * (13 / 10 : Rat)) }] }
          log := [] }

/-- A well-formed timestamp key: 14 digits of date and time. -/
def wellFormedKey (s : String) : Prop :=
  s.toList.length = 14 ∧ ∀ c ∈ s.toList, c.isDigit = true

/-! ### Properties of the embedded Python primitives -/

theorem charListLe_refl : ∀ x : List Char, charListLe x x = true
  | [] => rfl
  | a :: as => by simp [charListLe, lt_irrefl, charListLe_refl as]

theorem charListLe_total : ∀ x y : List Char, charListLe x y = true ∨ charListLe y x = true
  | [], _ => Or.inl rfl
  | _ :: _, [] => Or.inr rfl
  | a :: as, b :: bs => by
    rcases lt_trichotomy a b with h | h | h
    · left; simp [charListLe, h]
    · subst h
      rcases charListLe_total as bs with ih | ih
      · left; simp [charListLe, lt_irrefl, ih]
      · right; simp [charListLe, lt_irrefl, ih]
    · right; simp [charListLe, h]

theorem charListLe_trans :
    ∀ x y z : List Char, charListLe x y = true → charListLe y z = true → charListLe x z = true
  | [], _, _, _, _ => rfl
  | _ :: _, [], _, h₁, _ => by simp [charListLe] at h₁
  | _ :: _, _ :: _, [], _, h₂ => by simp [charListLe] at h₂
  | a :: as, b :: bs, c :: cs, h₁, h₂ => by
    rcases lt_trichotomy a b with hab | hab | hab
    · rcases lt_trichotomy b c with hbc | hbc | hbc
      · simp [charListLe, lt_trans hab hbc]
      · subst hbc; simp [charListLe, hab]
      · simp [charListLe, hbc, lt_asymm hbc] at h₂
    · subst hab
      simp only [charListLe, lt_irrefl, if_false] at h₁
      rcases lt_trichotomy a c with hac | hac | hac
      · simp [charListLe, hac]
      · subst hac
        simp only [charListLe, lt_irrefl, if_false] at h₂ ⊢
        exact charListLe_trans as bs cs h₁ h₂
      · simp [charListLe, hac, lt_asymm hac] at h₂
    · simp [charListLe, hab, lt_asymm hab] at h₁

theorem pyStrLe_refl (s : String) : pyStrLe s s = true :=
  charListLe_refl s.toList

instance : IsTotal SummaryRecord tsDesc :=
  ⟨fun a b => charListLe_total b.timestamp.toList a.timestamp.toList⟩

instance : IsTrans SummaryRecord tsDesc :=
  ⟨fun _ _ _ hab hbc => charListLe_trans _ _ _ hbc hab⟩

instance : IsTotal SummaryRecord dpavDesc :=
  ⟨fun a b => le_total b.total_dpav a.total_dpav⟩

instance : IsTrans SummaryRecord dpavDesc :=
  ⟨fun _ _ _ hab hbc => le_trans hbc hab⟩

instance : IsTotal SummaryRecord avAsc :=
  ⟨fun a b => le_total a.total_av b.total_av⟩

instance : IsTrans SummaryRecord avAsc :=
  ⟨fun _ _ _ hab hbc => le_trans hab hbc⟩

/-- A digit character is at least `'0'`. -/
theorem zero_le_of_isDigit {c : Char} (hc : c.isDigit = true) : ('0' : Char) ≤ c := by
  simp only [Char.isDigit, Bool.and_eq_true, decide_eq_true_eq, ge_iff_le] at hc
  exact hc.1

/-- A non-empty all-digit character list is strictly greater than `['0']`
in Python string order whenever it has at least two characters. -/
theorem charListLe_digits_zero {c : Char} {rest : List Char}
    (hc : c.isDigit = true) (hr : rest ≠ []) :
    charListLe (c :: rest) ['0'] = false := by
  have h0c : ¬ c < '0' := not_lt.mpr (zero_le_of_isDigit hc)
  by_cases h : '0' < c
  · simp [charListLe, h0c, h]
  · obtain ⟨r, rs, rfl⟩ := List.exists_cons_of_ne_nil hr
    simp [charListLe, h0c, h]

/-- A 14-digit timestamp key is never `≤` the fallback key `"0"`. -/
theorem pyStrLe_wf_zero {s : String} (h : wellFormedKey s) : pyStrLe s "0" = false := by
  obtain ⟨h14, hd⟩ := h
  unfold pyStrLe
  cases hs : s.toList with
  | nil => rw [hs] at h14; simp at h14
  | cons c rest =>
    have hc : c.isDigit = true := hd c (hs ▸ List.mem_cons_self c rest)
    have hr : rest ≠ [] := by
      intro hrn
      rw [hs, hrn] at h14
      simp at h14
    exact charListLe_digits_zero hc hr

theorem le_foldl_max (x : Rat) : ∀ xs : List Rat, x ≤ xs.foldl max x
  | [] => le_refl x
  | y :: ys => le_trans (le_max_left x y) (le_foldl_max (max x y) ys)

theorem mem_le_foldl_max (x : Rat) : ∀ xs : List Rat, ∀ v ∈ xs, v ≤ xs.foldl max x
  | y :: ys, v, hv => by
    rcases List.mem_cons.mp hv with rfl | hv
    · exact le_trans (le_max_right x v) (le_foldl_max (max x v) ys)
    · exact mem_le_foldl_max (max x y) ys v hv

theorem foldl_max_mem (x : Rat) : ∀ xs : List Rat, xs.foldl max x = x ∨ xs.foldl max x ∈ xs
  | [] => Or.inl rfl
  | y :: ys => by
    rcases foldl_max_mem (max x y) ys with h | h
    · rcases max_choice x y with hm | hm
      · left; simp only [List.foldl_cons]; rw [h, hm]
      · right; simp only [List.foldl_cons]; rw [h, hm]; exact List.mem_cons_self y ys
    · right; exact List.mem_cons_of_mem y h

/-- Characterisation of `listMax`: on a non-empty list it returns an element
that bounds every element. -/
theorem listMax_spec {xs : List Rat} {m : Rat} (h : listMax xs = some m) :
    m ∈ xs ∧ ∀ v ∈ xs, v ≤ m := by
  cases xs with
  | nil => simp [listMax] at h
  | cons x ys =>
    simp only [listMax, Option.some.injEq] at h
    subst h
    constructor
    · rcases foldl_max_mem x ys with h | h
      · rw [h]; exact List.mem_cons_self x ys
      · exact List.mem_cons_of_mem x h
    · intro v hv
      rcases List.mem_cons.mp hv with rfl | hv
      · exact le_foldl_max v ys
      · exact mem_le_foldl_max x ys v hv

/-! ### Shape lemmas for the loader -/

theorem load_result_eq (d : String) {files : List FileInput} (h : files ≠ [])
    (hne : files.filterMap processFile ≠ []) :
    (load_all_summaries d files).result =
      some ((files.filterMap processFile).insertionSort tsDesc) := by
  have hl : ¬ files.length = 0 := fun hl => h (List.length_eq_zero.mp hl)
  have hi : (files.filterMap processFile).isEmpty = false := by
    simpa [List.isEmpty_iff] using hne
  simp [load_all_summaries, hl, hi]

theorem load_result_of_filterMap_nil (d : String) {files : List FileInput} (h : files ≠ [])
    (hne : files.filterMap processFile = []) :
    (load_all_summaries d files).result = some [] := by
  have hl : ¬ files.length = 0 := fun hl => h (List.length_eq_zero.mp hl)
  simp [load_all_summaries, hl, hne]

/-- A record produced for a file of the glob list is a member of the final
loaded list. -/
theorem processFile_mem_result {d : String} {files : List FileInput} {fi : FileInput}
    {r : SummaryRecord} {recs : List SummaryRecord}
    (hfi : fi ∈ files) (hp : processFile fi = some r)
    (hl : (load_all_summaries d files).result = some recs) : r ∈ recs := by
  have hne : files ≠ [] := List.ne_nil_of_mem hfi
  have hmem : r ∈ files.filterMap processFile := List.mem_filterMap.mpr ⟨fi, hfi, hp⟩
  have hADne : files.filterMap processFile ≠ [] := List.ne_nil_of_mem hmem
  rw [load_result_eq d hne hADne] at hl
  cases hl
  exact (List.mem_insertionSort tsDesc).mpr hmem

/-- When a key is absent, `dict.get(key, default)` returns the default. -/
theorem dictGet_of_lookup_none {fields : List (String × Rat)} {k : String} {dflt : Rat}
    (h : lookupField fields k = none) : dictGet fields k dflt = dflt := by
  unfold lookupField at h
  unfold dictGet
  cases hf : fields.find? (fun kv => kv.1 = k) with
  | none => rfl
  | some kv => rw [hf] at h; simp at h

/-- About the log of a non-trivial load: the progress message followed by
one error line per unreadable file. -/
theorem load_log_eq (d : String) {files : List FileInput} (h : files ≠ []) :
    (load_all_summaries d files).log = foundMsg files.length :: fileLogs files := by
  have hl : ¬ files.length = 0 := fun hl => h (List.length_eq_zero.mp hl)
  simp [load_all_summaries, hl]

/-! ### The claims -/

/-- C2: for every glob-matching filename whose name with the `.json`
extension removed splits on underscores into fewer than 6 parts, the
loaded record for that file has `session_id` equal to the raw filename
(extension included) and timestamp key `"0"`. -/
theorem C2_fallback_label (d : String) (files : List FileInput) (fi : FileInput)
    (doc : SummaryDoc) (recs : List SummaryRecord)
    (hfi : fi ∈ files) (hparse : fi.parse = some doc)
    (hstart : strStartsWith (basename fi.filepath) "SUMMARY_" = true)
    (hend : strEndsWith (basename fi.filepath) ".json" = true)
    (hparts : (pySplit (pyDropRight (basename fi.filepath) 5) '_').length < 6)
    (hl : (load_all_summaries d files).result = some recs) :
    ∃ r ∈ recs, r.filepath = fi.filepath ∧
      r.session_id = basename fi.filepath ∧ r.timestamp = "0" := by
  have hp : processFile fi = some
      { filepath := fi.filepath
        session_id := basename fi.filepath
        timestamp := "0"
        total_dpav := dictGet doc.fields "total_dpav" 0
        total_av := dictGet doc.fields "total_av" 0 } := by
    simp [processFile, hparse, parseFilename, not_le.mpr hparts]
  exact ⟨_, processFile_mem_result hfi hp hl, rfl, rfl, rfl⟩

theorem C2_witness :
    ((⟨"battle_summaries/SUMMARY_weird.json", some ⟨[]⟩⟩ : FileInput)
        ∈ [(⟨"battle_summaries/SUMMARY_weird.json", some ⟨[]⟩⟩ : FileInput)])
    ∧ (load_all_summaries "battle_summaries"
          [⟨"battle_summaries/SUMMARY_weird.json", some ⟨[]⟩⟩]).result
        = some [{ filepath := "battle_summaries/SUMMARY_weird.json"
                  session_id := "SUMMARY_weird.json"
                  timestamp := "0"
                  total_dpav := 0
                  total_av := 0 }]
    ∧ ∃ r ∈ [({ filepath := "battle_summaries/SUMMARY_weird.json"
                session_id := "SUMMARY_weird.json"
                timestamp := "0"
                total_dpav := 0
                total_av := 0 } : SummaryRecord)],
        r.filepath = "battle_summaries/SUMMARY_weird.json" ∧
          r.session_id = basename "battle_summaries/SUMMARY_weird.json" ∧ r.timestamp = "0" :=
  ⟨by decide, by decide,
    C2_fallback_label "battle_summaries"
      [⟨"battle_summaries/SUMMARY_weird.json", some ⟨[]⟩⟩]
      ⟨"battle_summaries/SUMMARY_weird.json", some ⟨[]⟩⟩
      ⟨[]⟩
      [{ filepath := "battle_summaries/SUMMARY_weird.json"
         session_id := "SUMMARY_weird.json"
         timestamp := "0"
         total_dpav := 0
         total_av := 0 }]
      (by decide) rfl (by decide) (by decide) (by decide) (by decide)⟩

/-- C4: a summary file whose JSON parses to an object but lacks
`total_dpav` or `total_av` still yields a record in the loaded list, with
each missing field defaulted to `0`; the file is neither skipped nor does
it raise. -/
theorem C4_missing_fields_default (d : String) (files : List FileInput) (fi : FileInput)
    (doc : SummaryDoc) (recs : List SummaryRecord)
    (hfi : fi ∈ files) (hparse : fi.parse = some doc)
    (habsent : lookupField doc.fields "total_dpav" = none ∨
      lookupField doc.fields "total_av" = none)
    (hl : (load_all_summaries d files).result = some recs) :
    ∃ r ∈ recs, r.filepath = fi.filepath ∧
      (lookupField doc.fields "total_dpav" = none → r.total_dpav = 0) ∧
      (lookupField doc.fields "total_av" = none → r.total_av = 0) := by
  have hp : processFile fi = some
      { filepath := fi.filepath
        session_id := (parseFilename (basename fi.filepath)).1
        timestamp := (parseFilename (basename fi.filepath)).2
        total_dpav := dictGet doc.fields "total_dpav" 0
        total_av := dictGet doc.fields "total_av" 0 } := by
    simp [processFile, hparse]
  refine ⟨_, processFile_mem_result hfi hp hl, rfl, ?_, ?_⟩
  · intro hnone; exact dictGet_of_lookup_none hnone
  · intro hnone; exact dictGet_of_lookup_none hnone

theorem C4_witness :
    ((⟨"battle_summaries/SUMMARY_Acheron_MoC_v1_20240115_143022.json",
        some ⟨[("total_av", 150)]⟩⟩ : FileInput)
      ∈ [(⟨"battle_summaries/SUMMARY_Acheron_MoC_v1_20240115_143022.json",
            some ⟨[("total_av", 150)]⟩⟩ : FileInput)])
    ∧ lookupField [("total_av", (150 : Rat))] "total_dpav" = none
    ∧ (load_all_summaries "battle_summaries"
        [⟨"battle_summaries/SUMMARY_Acheron_MoC_v1_20240115_143022.json",
          some ⟨[("total_av", 150)]⟩⟩]).result
      = some [{ filepath := "battle_summaries/SUMMARY_Acheron_MoC_v1_20240115_143022.json"
                session_id := "Acheron [MoC] - 2024-01-15 14:30:22"
                timestamp := "20240115143022"
                total_dpav := 0
                total_av := 150 }]
    ∧ ∃ r ∈ [({ filepath := "battle_summaries/SUMMARY_Acheron_MoC_v1_20240115_143022.json"
                session_id := "Acheron [MoC] - 2024-01-15 14:30:22"
                timestamp := "20240115143022"
                total_dpav := 0
                total_av := 150 } : SummaryRecord)],
        r.filepath = "battle_summaries/SUMMARY_Acheron_MoC_v1_20240115_143022.json" ∧
          (lookupField [("total_av", (150 : Rat))] "total_dpav" = none → r.total_dpav = 0) ∧
          (lookupField [("total_av", (150 : Rat))] "total_av" = none → r.total_av = 0) :=
  ⟨by decide, by decide, by decide,
    C4_missing_fields_default "battle_summaries"
      [⟨"battle_summaries/SUMMARY_Acheron_MoC_v1_20240115_143022.json",
        some ⟨[("total_av", 150)]⟩⟩]
      ⟨"battle_summaries/SUMMARY_Acheron_MoC_v1_20240115_143022.json",
        some ⟨[("total_av", 150)]⟩⟩
      ⟨[("total_av", 150)]⟩
      [{ filepath := "battle_summaries/SUMMARY_Acheron_MoC_v1_20240115_143022.json"
         session_id := "Acheron [MoC] - 2024-01-15 14:30:22"
         timestamp := "20240115143022"
         total_dpav := 0
         total_av := 150 }]
      (by decide) rfl (Or.inl (by decide)) (by decide)⟩

/-- C5: a file whose read or JSON parse raises contributes no record, not
even a partial one — the loaded record list is exactly the one obtained
from the remaining files — while an error line for it is logged and
processing continues. -/
theorem C5_failed_file_skipped (d : String) (files₁ files₂ : List FileInput) (fi : FileInput)
    (hparse : fi.parse = none) (hne : files₁ ++ files₂ ≠ []) :
    (load_all_summaries d (files₁ ++ fi :: files₂)).result
        = (load_all_summaries d (files₁ ++ files₂)).result
    ∧ ("Error processing file " ++ fi.filepath)
        ∈ (load_all_summaries d (files₁ ++ fi :: files₂)).log := by
  have hpf : processFile fi = none := by simp [processFile, hparse]
  have hfm : (files₁ ++ fi :: files₂).filterMap processFile
      = (files₁ ++ files₂).filterMap processFile := by
    simp [List.filterMap_append, List.filterMap_cons, hpf]
  have hwith : files₁ ++ fi :: files₂ ≠ [] := by simp
  constructor
  · by_cases hAD : (files₁ ++ files₂).filterMap processFile = []
    · rw [load_result_of_filterMap_nil d hwith (hfm.trans hAD),
        load_result_of_filterMap_nil d hne hAD]
    · rw [load_result_eq d hwith (by rw [hfm]; exact hAD), load_result_eq d hne hAD, hfm]
  · rw [load_log_eq d hwith]
    apply List.mem_cons_of_mem
    exact List.mem_filterMap.mpr ⟨fi, by simp, by simp [hparse]⟩

theorem C5_witness :
    ((⟨"battle_summaries/SUMMARY_bad.json", none⟩ : FileInput).parse = none)
    ∧ ([(⟨"battle_summaries/SUMMARY_weird.json", some ⟨[]⟩⟩ : FileInput)] ++ [] ≠ [])
    ∧ ((load_all_summaries "battle_summaries"
          ([⟨"battle_summaries/SUMMARY_weird.json", some ⟨[]⟩⟩]
            ++ (⟨"battle_summaries/SUMMARY_bad.json", none⟩ : FileInput) :: [])).result
        = (load_all_summaries "battle_summaries"
            ([(⟨"battle_summaries/SUMMARY_weird.json", some ⟨[]⟩⟩ : FileInput)] ++ [])).result
      ∧ ("Error processing file " ++ "battle_summaries/SUMMARY_bad.json")
          ∈ (load_all_summaries "battle_summaries"
              ([⟨"battle_summaries/SUMMARY_weird.json", some ⟨[]⟩⟩]
                ++ (⟨"battle_summaries/SUMMARY_bad.json", none⟩ : FileInput) :: [])).log) :=
  ⟨rfl, by decide,
    C5_failed_file_skipped "battle_summaries"
      [⟨"battle_summaries/SUMMARY_weird.json", some ⟨[]⟩⟩] []
      ⟨"battle_summaries/SUMMARY_bad.json", none⟩ rfl (by decide)⟩

/-- C7: when the read or JSON parse of the selected record's file fails
(e.g. the file was deleted after load), `show_detail_window` catches the
failure, logs it, opens no detail window, and leaves the application state
— in particular the loaded record list — untouched. -/
theorem C7_detail_read_failure (st : AppState) (info : SummaryRecord) :
    show_detail_window st info none
      = Except.ok { state := st, log := ["Could not open detail file"] } :=
  rfl

/-- C8: with zero glob-matching files the loader reports via a console
message and returns `None`; the UI shows only the placeholder label and
renders no comparison charts. -/
theorem C8_no_matching_files (d : String) :
    analyzer_init d [] =
      { summaries_data := none
        log := [noFilesMsg d]
        placeholder_shown := true
        comparison := none } :=
  rfl

/-- C1 as frozen is false: the loader takes the date and time from the 5th
and 6th underscore-delimited segments (`parts[4]`, `parts[5]`), not from
the trailing segments.  For the matching filename
`SUMMARY_Acheron_MoC_v1_extra_20240115_143022.json`, which splits into 7
parts whose trailing date and time segments are `20240115` and `143022`,
the derived label and key are built from `extra` and `20240115` instead,
so they differ from the claimed `"Acheron [MoC] - 2024-01-15 14:30:22"` /
`"20240115143022"`. -/
theorem C1_counterexample :
    pySplit (pyDropRight (basename
        "battle_summaries/SUMMARY_Acheron_MoC_v1_extra_20240115_143022.json") 5) '_'
      = ["SUMMARY", "Acheron", "MoC", "v1", "extra", "20240115", "143022"]
    ∧ (processFile ⟨"battle_summaries/SUMMARY_Acheron_MoC_v1_extra_20240115_143022.json",
        some ⟨[]⟩⟩).map (fun r => (r.session_id, r.timestamp))
      = some ("Acheron [MoC] - extr-a- 20:24:01", "extra20240115")
    ∧ (("Acheron [MoC] - extr-a- 20:24:01", "extra20240115") : String × String)
      ≠ ("Acheron [MoC] - 2024-01-15 14:30:22", "20240115143022") := by
  refine ⟨by decide, by decide, by decide⟩

/-- C1 (amended): for every glob-matching filename whose name with the
`.json` extension removed splits on underscores into at least 6 parts, the
loaded record's session label is
`"<team> [<mode>] - <YYYY>-<MM>-<DD> <HH>:<MM>:<SS>"` and its timestamp key
is `"<YYYYMMDD><HHMMSS>"`, where `<team>` and `<mode>` are the 2nd and 3rd
underscore-delimited segments and `<YYYYMMDD>` and `<HHMMSS>` are the 5th
and 6th segments (the trailing ones only when there are exactly 6 parts);
the date and time pieces are the Python slices `[0:4]`, `[4:6]`, `[6:8]`
and `[0:2]`, `[2:4]`, `[4:6]` of those segments. -/
theorem C1_amended_label (d : String) (files : List FileInput) (fi : FileInput)
    (doc : SummaryDoc) (recs : List SummaryRecord) (parts : List String)
    (hfi : fi ∈ files) (hparse : fi.parse = some doc)
    (hstart : strStartsWith (basename fi.filepath) "SUMMARY_" = true)
    (hend : strEndsWith (basename fi.filepath) ".json" = true)
    (hsplit : pySplit (pyDropRight (basename fi.filepath) 5) '_' = parts)
    (hlen : 6 ≤ parts.length)
    (hl : (load_all_summaries d files).result = some recs) :
    ∃ r ∈ recs, r.filepath = fi.filepath ∧
      r.session_id = parts.getD 1 "" ++ " [" ++ parts.getD 2 "" ++ "] - "
        ++ pySlice (parts.getD 4 "") 0 4 ++ "-" ++ pySlice (parts.getD 4 "") 4 6 ++ "-"
        ++ pySlice (parts.getD 4 "") 6 8
        ++ " " ++ pySlice (parts.getD 5 "") 0 2 ++ ":" ++ pySlice (parts.getD 5 "") 2 4 ++ ":"
        ++ pySlice (parts.getD 5 "") 4 6 ∧
      r.timestamp = parts.getD 4 "" ++ parts.getD 5 "" := by
  have hpf : parseFilename (basename fi.filepath)
      = (parts.getD 1 "" ++ " [" ++ parts.getD 2 "" ++ "] - "
          ++ pySlice (parts.getD 4 "") 0 4 ++ "-" ++ pySlice (parts.getD 4 "") 4 6 ++ "-"
          ++ pySlice (parts.getD 4 "") 6 8
          ++ " " ++ pySlice (parts.getD 5 "") 0 2 ++ ":" ++ pySlice (parts.getD 5 "") 2 4 ++ ":"
          ++ pySlice (parts.getD 5 "") 4 6,
        parts.getD 4 "" ++ parts.getD 5 "") := by
    unfold parseFilename
    rw [hsplit]
    simp [hlen, String.append_assoc]
  have hp : processFile fi = some
      { filepath := fi.filepath
        session_id := (parseFilename (basename fi.filepath)).1
        timestamp := (parseFilename (basename fi.filepath)).2
        total_dpav := dictGet doc.fields "total_dpav" 0
        total_av := dictGet doc.fields "total_av" 0 } := by
    simp [processFile, hparse]
  refine ⟨_, processFile_mem_result hfi hp hl, rfl, ?_, ?_⟩
  · rw [hpf]
  · rw [hpf]

theorem C1_amended_witness :
    ((⟨"battle_summaries/SUMMARY_Acheron_MoC_v1_20240115_143022.json", some ⟨[]⟩⟩ : FileInput)
        ∈ [(⟨"battle_summaries/SUMMARY_Acheron_MoC_v1_20240115_143022.json",
              some ⟨[]⟩⟩ : FileInput)])
    ∧ pySplit (pyDropRight (basename
          "battle_summaries/SUMMARY_Acheron_MoC_v1_20240115_143022.json") 5) '_'
        = ["SUMMARY", "Acheron", "MoC", "v1", "20240115", "143022"]
    ∧ (load_all_summaries "battle_summaries"
          [⟨"battle_summaries/SUMMARY_Acheron_MoC_v1_20240115_143022.json", some ⟨[]⟩⟩]).result
        = some [{ filepath := "battle_summaries/SUMMARY_Acheron_MoC_v1_20240115_143022.json"
                  session_id := "Acheron [MoC] - 2024-01-15 14:30:22"
                  timestamp := "20240115143022"
                  total_dpav := 0
                  total_av := 0 }]
    ∧ ∃ r ∈ [({ filepath := "battle_summaries/SUMMARY_Acheron_MoC_v1_20240115_143022.json"
                session_id := "Acheron [MoC] - 2024-01-15 14:30:22"
                timestamp := "20240115143022"
                total_dpav := 0
                total_av := 0 } : SummaryRecord)],
        r.filepath = "battle_summaries/SUMMARY_Acheron_MoC_v1_20240115_143022.json" ∧
          r.session_id = (["SUMMARY", "Acheron", "MoC", "v1", "20240115", "143022"]).getD 1 ""
            ++ " [" ++ (["SUMMARY", "Acheron", "MoC", "v1", "20240115", "143022"]).getD 2 ""
            ++ "] - "
            ++ pySlice ((["SUMMARY", "Acheron", "MoC", "v1", "20240115", "143022"]).getD 4 "") 0 4
            ++ "-"
            ++ pySlice ((["SUMMARY", "Acheron", "MoC", "v1", "20240115", "143022"]).getD 4 "") 4 6
            ++ "-"
            ++ pySlice ((["SUMMARY", "Acheron", "MoC", "v1", "20240115", "143022"]).getD 4 "") 6 8
            ++ " "
            ++ pySlice ((["SUMMARY", "Acheron", "MoC", "v1", "20240115", "143022"]).getD 5 "") 0 2
            ++ ":"
            ++ pySlice ((["SUMMARY", "Acheron", "MoC", "v1", "20240115", "143022"]).getD 5 "") 2 4
            ++ ":"
            ++ pySlice ((["SUMMARY", "Acheron", "MoC", "v1", "20240115", "143022"]).getD 5 "") 4 6
          ∧ r.timestamp = (["SUMMARY", "Acheron", "MoC", "v1", "20240115", "143022"]).getD 4 ""
            ++ (["SUMMARY", "Acheron", "MoC", "v1", "20240115", "143022"]).getD 5 "" :=
  ⟨by decide, by decide, by decide,
    C1_amended_label "battle_summaries"
      [⟨"battle_summaries/SUMMARY_Acheron_MoC_v1_20240115_143022.json", some ⟨[]⟩⟩]
      ⟨"battle_summaries/SUMMARY_Acheron_MoC_v1_20240115_143022.json", some ⟨[]⟩⟩
      ⟨[]⟩
      [{ filepath := "battle_summaries/SUMMARY_Acheron_MoC_v1_20240115_143022.json"
         session_id := "Acheron [MoC] - 2024-01-15 14:30:22"
         timestamp := "20240115143022"
         total_dpav := 0
         total_av := 0 }]
      ["SUMMARY", "Acheron", "MoC", "v1", "20240115", "143022"]
      (by decide) rfl (by decide) (by decide) (by decide) (by decide) (by decide)⟩

/-- C3: whatever the directory contents, the loaded record list is sorted
descending by timestamp key under Python string comparison; consequently
every record with a well-formed 14-digit key appears strictly before every
record with the fallback key `"0"`. -/
theorem C3_sorted_desc (d : String) (files : List FileInput) (recs : List SummaryRecord)
    (hl : (load_all_summaries d files).result = some recs) :
    List.Pairwise tsDesc recs ∧
      ∀ (i j : Fin recs.length), wellFormedKey (recs.get i).timestamp →
        (recs.get j).timestamp = "0" → (i : Nat) < (j : Nat) := by
  have hsorted : List.Pairwise tsDesc recs := by
    rcases eq_or_ne files [] with rfl | hne
    · simp [load_all_summaries] at hl
    · by_cases hAD : files.filterMap processFile = []
      · rw [load_result_of_filterMap_nil d hne hAD] at hl
        cases hl
        exact List.Pairwise.nil
      · rw [load_result_eq d hne hAD] at hl
        cases hl
        exact List.sorted_insertionSort tsDesc _
  refine ⟨hsorted, ?_⟩
  intro i j hwf hzero
  by_contra hij
  push_neg at hij
  rcases lt_or_eq_of_le hij with hji | hji
  · have hrel := List.pairwise_iff_get.mp hsorted j i hji
    have hfalse := pyStrLe_wf_zero hwf
    rw [tsDesc, hzero] at hrel
    rw [hrel] at hfalse
    exact absurd hfalse (by decide)
  · have hij' : i = j := Fin.ext hji.symm
    rw [hij', hzero] at hwf
    exact absurd hwf.1 (by decide)

theorem C3_witness :
    ((load_all_summaries "battle_summaries"
        [⟨"battle_summaries/SUMMARY_weird.json", some ⟨[]⟩⟩,
          ⟨"battle_summaries/SUMMARY_Acheron_MoC_v1_20240115_143022.json", some ⟨[]⟩⟩]).result
      = some [{ filepath := "battle_summaries/SUMMARY_Acheron_MoC_v1_20240115_143022.json"
                session_id := "Acheron [MoC] - 2024-01-15 14:30:22"
                timestamp := "20240115143022"
                total_dpav := 0
                total_av := 0 },
              { filepath := "battle_summaries/SUMMARY_weird.json"
                session_id := "SUMMARY_weird.json"
                timestamp := "0"
                total_dpav := 0
                total_av := 0 }])
    ∧ (List.Pairwise tsDesc
        [{ filepath := "battle_summaries/SUMMARY_Acheron_MoC_v1_20240115_143022.json"
           session_id := "Acheron [MoC] - 2024-01-15 14:30:22"
           timestamp := "20240115143022"
           total_dpav := 0
           total_av := 0 },
         { filepath := "battle_summaries/SUMMARY_weird.json"
           session_id := "SUMMARY_weird.json"
           timestamp := "0"
           total_dpav := 0
           total_av := 0 }] ∧
      ∀ (i j : Fin ([{ filepath := "battle_summaries/SUMMARY_Acheron_MoC_v1_20240115_143022.json"
                       session_id := "Acheron [MoC] - 2024-01-15 14:30:22"
                       timestamp := "20240115143022"
                       total_dpav := 0
                       total_av := 0 },
                     { filepath := "battle_summaries/SUMMARY_weird.json"
                       session_id := "SUMMARY_weird.json"
                       timestamp := "0"
                       total_dpav := 0
                       total_av := 0 }] : List SummaryRecord).length),
        wellFormedKey (([{ filepath := "battle_summaries/SUMMARY_Acheron_MoC_v1_20240115_143022.json"
                           session_id := "Acheron [MoC] - 2024-01-15 14:30:22"
                           timestamp := "20240115143022"
                           total_dpav := 0
                           total_av := 0 },
                         { filepath := "battle_summaries/SUMMARY_weird.json"
                           session_id := "SUMMARY_weird.json"
                           timestamp := "0"
                           total_dpav := 0
                           total_av := 0 }] : List SummaryRecord).get i).timestamp →
        (([{ filepath := "battle_summaries/SUMMARY_Acheron_MoC_v1_20240115_143022.json"
             session_id := "Acheron [MoC] - 2024-01-15 14:30:22"
             timestamp := "20240115143022"
             total_dpav := 0
             total_av := 0 },
           { filepath := "battle_summaries/SUMMARY_weird.json"
             session_id := "SUMMARY_weird.json"
             timestamp := "0"
             total_dpav := 0
             total_av := 0 }] : List SummaryRecord).get j).timestamp = "0" →
        (i : Nat) < (j : Nat)) :=
  ⟨by decide,
    C3_sorted_desc "battle_summaries"
      [⟨"battle_summaries/SUMMARY_weird.json", some ⟨[]⟩⟩,
        ⟨"battle_summaries/SUMMARY_Acheron_MoC_v1_20240115_143022.json", some ⟨[]⟩⟩]
      [{ filepath := "battle_summaries/SUMMARY_Acheron_MoC_v1_20240115_143022.json"
         session_id := "Acheron [MoC] - 2024-01-15 14:30:22"
         timestamp := "20240115143022"
         total_dpav := 0
         total_av := 0 },
       { filepath := "battle_summaries/SUMMARY_weird.json"
         session_id := "SUMMARY_weird.json"
         timestamp := "0"
         total_dpav := 0
         total_av := 0 }]
      (by decide)⟩

/-- C10: the loader's descending sort is stable — two records whose
timestamp keys tie keep the relative order they had after the
file-enumeration-and-processing phase — so a run over a given enumeration
is fully deterministic. -/
theorem C10_stable_tie_order (d : String) (files : List FileInput)
    (recs : List SummaryRecord) (a b : SummaryRecord)
    (hl : (load_all_summaries d files).result = some recs)
    (hsub : [a, b].Sublist (files.filterMap processFile))
    (hts : a.timestamp = b.timestamp) :
    [a, b].Sublist recs := by
  have hADne : files.filterMap processFile ≠ [] := by
    intro h
    rw [h] at hsub
    simp at hsub
  have hne : files ≠ [] := by
    intro h
    apply hADne
    rw [h]
    rfl
  rw [load_result_eq d hne hADne] at hl
  cases hl
  refine List.pair_sublist_insertionSort ?_ hsub
  show pyStrLe b.timestamp a.timestamp = true
  rw [← hts]
  exact pyStrLe_refl _

theorem C10_witness :
    ((load_all_summaries "battle_summaries"
        [⟨"battle_summaries/SUMMARY_Alpha_MoC_v1_20240115_143022.json", some ⟨[]⟩⟩,
          ⟨"battle_summaries/SUMMARY_Beta_MoC_v1_20240115_143022.json", some ⟨[]⟩⟩]).result
      = some [{ filepath := "battle_summaries/SUMMARY_Alpha_MoC_v1_20240115_143022.json"
                session_id := "Alpha [MoC] - 2024-01-15 14:30:22"
                timestamp := "20240115143022"
                total_dpav := 0
                total_av := 0 },
              { filepath := "battle_summaries/SUMMARY_Beta_MoC_v1_20240115_143022.json"
                session_id := "Beta [MoC] - 2024-01-15 14:30:22"
                timestamp := "20240115143022"
                total_dpav := 0
                total_av := 0 }])
    ∧ ([{ filepath := "battle_summaries/SUMMARY_Alpha_MoC_v1_20240115_143022.json"
          session_id := "Alpha [MoC] - 2024-01-15 14:30:22"
          timestamp := "20240115143022"
          total_dpav := 0
          total_av := 0 },
        { filepath := "battle_summaries/SUMMARY_Beta_MoC_v1_20240115_143022.json"
          session_id := "Beta [MoC] - 2024-01-15 14:30:22"
          timestamp := "20240115143022"
          total_dpav := 0
          total_av := 0 }] : List SummaryRecord).Sublist
        ([⟨"battle_summaries/SUMMARY_Alpha_MoC_v1_20240115_143022.json", some ⟨[]⟩⟩,
          (⟨"battle_summaries/SUMMARY_Beta_MoC_v1_20240115_143022.json",
            some ⟨[]⟩⟩ : FileInput)].filterMap processFile)
    ∧ ([{ filepath := "battle_summaries/SUMMARY_Alpha_MoC_v1_20240115_143022.json"
          session_id := "Alpha [MoC] - 2024-01-15 14:30:22"
          timestamp := "20240115143022"
          total_dpav := 0
          total_av := 0 },
        { filepath := "battle_summaries/SUMMARY_Beta_MoC_v1_20240115_143022.json"
          session_id := "Beta [MoC] - 2024-01-15 14:30:22"
          timestamp := "20240115143022"
          total_dpav := 0
          total_av := 0 }] : List SummaryRecord).Sublist
        [{ filepath := "battle_summaries/SUMMARY_Alpha_MoC_v1_20240115_143022.json"
           session_id := "Alpha [MoC] - 2024-01-15 14:30:22"
           timestamp := "20240115143022"
           total_dpav := 0
           total_av := 0 },
         { filepath := "battle_summaries/SUMMARY_Beta_MoC_v1_20240115_143022.json"
           session_id := "Beta [MoC] - 2024-01-15 14:30:22"
           timestamp := "20240115143022"
           total_dpav := 0
           total_av := 0 }] :=
  ⟨by decide, by decide,
    C10_stable_tie_order "battle_summaries"
      [⟨"battle_summaries/SUMMARY_Alpha_MoC_v1_20240115_143022.json", some ⟨[]⟩⟩,
        ⟨"battle_summaries/SUMMARY_Beta_MoC_v1_20240115_143022.json", some ⟨[]⟩⟩]
      [{ filepath := "battle_summaries/SUMMARY_Alpha_MoC_v1_20240115_143022.json"
         session_id := "Alpha [MoC] - 2024-01-15 14:30:22"
         timestamp := "20240115143022"
         total_dpav := 0
         total_av := 0 },
       { filepath := "battle_summaries/SUMMARY_Beta_MoC_v1_20240115_143022.json"
         session_id := "Beta [MoC] - 2024-01-15 14:30:22"
         timestamp := "20240115143022"
         total_dpav := 0
         total_av := 0 }]
      { filepath := "battle_summaries/SUMMARY_Alpha_MoC_v1_20240115_143022.json"
        session_id := "Alpha [MoC] - 2024-01-15 14:30:22"
        timestamp := "20240115143022"
        total_dpav := 0
        total_av := 0 }
      { filepath := "battle_summaries/SUMMARY_Beta_MoC_v1_20240115_143022.json"
        session_id := "Beta [MoC] - 2024-01-15 14:30:22"
        timestamp := "20240115143022"
        total_dpav := 0
        total_av := 0 }
      (by decide) (by decide) rfl⟩

/-- The comprehension of line 191 raises a `KeyError` exactly when some
character entry lacks `total_damage`. -/
theorem collectDamages_eq_none_iff : ∀ l : List (String × CharEntry),
    collectDamages l = none ↔ ∃ p ∈ l, lookupField p.2.fields "total_damage" = none
  | [] => by simp [collectDamages]
  | (n, e) :: rest => by
    cases hl : lookupField e.fields "total_damage" with
    | none =>
      simp only [collectDamages, hl]
      constructor
      · intro _
        exact ⟨(n, e), List.mem_cons_self _ _, hl⟩
      · intro _
        trivial
    | some dv =>
      simp only [collectDamages, hl, List.mem_cons]
      rw [Option.map_eq_none', collectDamages_eq_none_iff rest]
      constructor
      · rintro ⟨p, hp, hnone⟩
        exact ⟨p, Or.inr hp, hnone⟩
      · rintro ⟨p, hp | hp, hnone⟩
        · subst hp
          rw [hl] at hnone
          cases hnone
        · exact ⟨p, hp, hnone⟩

/-- C6 as frozen is false: the `try` of `show_detail_window` covers only
the file read and JSON parse; the extraction of `d['total_damage']` at
line 191 runs outside it, so a detail document whose character entry lacks
`total_damage` raises a `KeyError` that propagates out of the handler
(modelled as `Except.error`). -/
theorem C6_counterexample :
    show_detail_window
        { summaries_data := some [], detail_windows := [] }
        { filepath := "battle_summaries/SUMMARY_weird.json"
          session_id := "SUMMARY_weird.json"
          timestamp := "0"
          total_dpav := 0
          total_av := 0 }
        (some { team_name := some "Acheron"
                characters := some [("Acheron", ⟨[("avg_damage", 100)]⟩)] })
      = Except.error "KeyError: \x27total_damage\x27" :=
  rfl

/-- C6 (amended): exceptions raised while reading or JSON-parsing the
detail file are caught inside the handler, and a well-formed document
never raises; but an exception from a detail document whose character
entries lack `total_damage` is not caught and propagates out of the
handler (only the surrounding UI toolkit keeps it from killing the
application).  Precisely: the handler propagates an exception iff the read
succeeded and some character entry lacks `total_damage`. -/
theorem C6_amended_catch_boundary (st : AppState) (info : SummaryRecord)
    (readResult : Option DetailDoc) :
    (∃ e, show_detail_window st info readResult = Except.error e) ↔
      ∃ doc, readResult = some doc ∧
        ∃ p ∈ doc.characters.getD [], lookupField p.2.fields "total_damage" = none := by
  cases readResult with
  | none =>
    simp [show_detail_window]
  | some data =>
    cases hc : collectDamages (data.characters.getD []) with
    | none =>
      simp only [show_detail_window, hc]
      constructor
      · intro _
        exact ⟨data, rfl, (collectDamages_eq_none_iff _).mp hc⟩
      · intro _
        exact ⟨_, rfl⟩
    | some ds =>
      simp only [show_detail_window, hc]
      constructor
      · rintro ⟨e, he⟩
        cases he
      · rintro ⟨doc, hdoc, hmiss⟩
        cases hdoc
        rw [(collectDamages_eq_none_iff _).mpr hmiss] at hc
        cases hc

/-- C9: on a non-empty record list the overview builds exactly two ranked
views: the DpAV chart plots all records sorted descending by `total_dpav`
with the maximal record first and highlighted in gold, the AV chart plots
all records sorted ascending by `total_av` with the minimal record first
and highlighted in green, and each chart's y-axis upper limit is `1.3`
times the maximum value plotted on that chart. -/
theorem C9_overview_views (records : List SummaryRecord) (hne : records ≠ []) :
    (List.Perm (create_comparison_plots records).df_dpav_sorted records ∧
      List.Pairwise dpavDesc (create_comparison_plots records).df_dpav_sorted ∧
      (∃ best rest, (create_comparison_plots records).df_dpav_sorted = best :: rest ∧
        (∀ r ∈ records, r.total_dpav ≤ best.total_dpav) ∧
        (create_comparison_plots records).dpav_colors.head? = some "gold") ∧
      ∃ m, m ∈ (create_comparison_plots records).dpav_values ∧
        (∀ v ∈ (create_comparison_plots records).dpav_values, v ≤ m) ∧
        (create_comparison_plots records).dpav_ylim_top = some (m * (13 / 10 : Rat)))
    ∧ (List.Perm (create_comparison_plots records).df_av_sorted records ∧
      List.Pairwise avAsc (create_comparison_plots records).df_av_sorted ∧
      (∃ best rest, (create_comparison_plots records).df_av_sorted = best :: rest ∧
        (∀ r ∈ records, best.total_av ≤ r.total_av) ∧
        (create_comparison_plots records).av_colors.head? = some "limegreen") ∧
      ∃ m, m ∈ (create_comparison_plots records).av_values ∧
        (∀ v ∈ (create_comparison_plots records).av_values, v ≤ m) ∧
        (create_comparison_plots records).av_ylim_top = some (m * (13 / 10 : Rat))) := by
  have hlen : records.length ≠ 0 := fun h => hne (List.length_eq_zero.mp h)
  constructor
  · -- DpAV chart
    have hds : (create_comparison_plots records).df_dpav_sorted
        = records.insertionSort dpavDesc := rfl
    have hsort := List.sorted_insertionSort dpavDesc records
    cases hs : records.insertionSort dpavDesc with
    | nil =>
      exact absurd (by rw [← List.length_insertionSort dpavDesc records, hs]; rfl) hlen
    | cons best rest =>
      rw [hs] at hsort
      have hbound : ∀ r ∈ records, r.total_dpav ≤ best.total_dpav := by
        intro r hr
        have hr' : r ∈ records.insertionSort dpavDesc :=
          (List.mem_insertionSort dpavDesc).mpr hr
        rw [hs] at hr'
        rcases List.mem_cons.mp hr' with rfl | hr'
        · exact le_refl _
        · exact List.rel_of_sorted_cons hsort r hr'
      have hmax : listMax ((records.insertionSort dpavDesc).map (fun r => r.total_dpav))
          = some ((rest.map (fun r => r.total_dpav)).foldl max best.total_dpav) := by
        rw [hs]; rfl
      obtain ⟨hmem, hub⟩ := listMax_spec hmax
      refine ⟨?_, ?_, ⟨best, rest, ?_, hbound, ?_⟩, ?_⟩
      · exact List.perm_insertionSort dpavDesc records
      · exact List.sorted_insertionSort dpavDesc records
      · rw [hds, hs]
      · show ((records.insertionSort dpavDesc).map (fun r =>
            if some r.session_id = (records.insertionSort dpavDesc).head?.map
              (fun r => r.session_id) then "gold" else "skyblue")).head? = some "gold"
        rw [hs]
        simp
      · refine ⟨(rest.map (fun r => r.total_dpav)).foldl max best.total_dpav, ?_, ?_, ?_⟩
        · show _ ∈ (records.insertionSort dpavDesc).map (fun r => r.total_dpav)
          rw [hs] at hmem ⊢
          exact hmem
        · intro v hv
          exact hub v hv
        · show (listMax ((records.insertionSort dpavDesc).map (fun r => r.total_dpav))).map
              (fun m => m * (13 / 10 : Rat)) = _
          rw [hmax]
          rfl
  · -- AV chart
    have hds : (create_comparison_plots records).df_av_sorted
        = records.insertionSort avAsc := rfl
    have hsort := List.sorted_insertionSort avAsc records
    cases hs : records.insertionSort avAsc with
    | nil =>
      exact absurd (by rw [← List.length_insertionSort avAsc records, hs]; rfl) hlen
    | cons best rest =>
      rw [hs] at hsort
      have hbound : ∀ r ∈ records, best.total_av ≤ r.total_av := by
        intro r hr
        have hr' : r ∈ records.insertionSort avAsc :=
          (List.mem_insertionSort avAsc).mpr hr
        rw [hs] at hr'
        rcases List.mem_cons.mp hr' with rfl | hr'
        · exact le_refl _
        · exact List.rel_of_sorted_cons hsort r hr'
      have hmax : listMax ((records.insertionSort avAsc).map (fun r => r.total_av))
          = some ((rest.map (fun r => r.total_av)).foldl max best.total_av) := by
        rw [hs]; rfl
      obtain ⟨hmem, hub⟩ := listMax_spec hmax
      refine ⟨?_, ?_, ⟨best, rest, ?_, hbound, ?_⟩, ?_⟩
      · exact List.perm_insertionSort avAsc records
      · exact List.sorted_insertionSort avAsc records
      · rw [hds, hs]
      · show ((records.insertionSort avAsc).map (fun r =>
            if some r.session_id = (records.insertionSort avAsc).head?.map
              (fun r => r.session_id) then "limegreen" else "lightcoral")).head?
            = some "limegreen"
        rw [hs]
        simp
      · refine ⟨(rest.map (fun r => r.total_av)).foldl max best.total_av, ?_, ?_, ?_⟩
        · show _ ∈ (records.insertionSort avAsc).map (fun r => r.total_av)
          rw [hs] at hmem ⊢
          exact hmem
        · intro v hv
          exact hub v hv
        · show (listMax ((records.insertionSort avAsc).map (fun r => r.total_av))).map
              (fun m => m * (13 / 10 : Rat)) = _
          rw [hmax]
          rfl

theorem C9_witness :
    (([{ filepath := "battle_summaries/SUMMARY_Acheron_MoC_v1_20240115_143022.json"
         session_id := "Acheron [MoC] - 2024-01-15 14:30:22"
         timestamp := "20240115143022"
         total_dpav := 3500
         total_av := 150 }] : List SummaryRecord) ≠ [])
    ∧ ((List.Perm (create_comparison_plots
          [{ filepath := "battle_summaries/SUMMARY_Acheron_MoC_v1_20240115_143022.json"
             session_id := "Acheron [MoC] - 2024-01-15 14:30:22"
             timestamp := "20240115143022"
             total_dpav := 3500
             total_av := 150 }]).df_dpav_sorted
          [{ filepath := "battle_summaries/SUMMARY_Acheron_MoC_v1_20240115_143022.json"
             session_id := "Acheron [MoC] - 2024-01-15 14:30:22"
             timestamp := "20240115143022"
             total_dpav := 3500
             total_av := 150 }] ∧
        List.Pairwise dpavDesc (create_comparison_plots
          [{ filepath := "battle_summaries/SUMMARY_Acheron_MoC_v1_20240115_143022.json"
             session_id := "Acheron [MoC] - 2024-01-15 14:30:22"
             timestamp := "20240115143022"
             total_dpav := 3500
             total_av := 150 }]).df_dpav_sorted ∧
        (∃ best rest, (create_comparison_plots
            [{ filepath := "battle_summaries/SUMMARY_Acheron_MoC_v1_20240115_143022.json"
               session_id := "Acheron [MoC] - 2024-01-15 14:30:22"
               timestamp := "20240115143022"
               total_dpav := 3500
               total_av := 150 }]).df_dpav_sorted = best :: rest ∧
          (∀ r ∈ ([{ filepath := "battle_summaries/SUMMARY_Acheron_MoC_v1_20240115_143022.json"
                     session_id := "Acheron [MoC] - 2024-01-15 14:30:22"
                     timestamp := "20240115143022"
                     total_dpav := 3500
                     total_av := 150 }] : List SummaryRecord),
            r.total_dpav ≤ best.total_dpav) ∧
          (create_comparison_plots
            [{ filepath := "battle_summaries/SUMMARY_Acheron_MoC_v1_20240115_143022.json"
               session_id := "Acheron [MoC] - 2024-01-15 14:30:22"
               timestamp := "20240115143022"
               total_dpav := 3500
               total_av := 150 }]).dpav_colors.head? = some "gold") ∧
        ∃ m, m ∈ (create_comparison_plots
            [{ filepath := "battle_summaries/SUMMARY_Acheron_MoC_v1_20240115_143022.json"
               session_id := "Acheron [MoC] - 2024-01-15 14:30:22"
               timestamp := "20240115143022"
               total_dpav := 3500
               total_av := 150 }]).dpav_values ∧
          (∀ v ∈ (create_comparison_plots
              [{ filepath := "battle_summaries/SUMMARY_Acheron_MoC_v1_20240115_143022.json"
                 session_id := "Acheron [MoC] - 2024-01-15 14:30:22"
                 timestamp := "20240115143022"
                 total_dpav := 3500
                 total_av := 150 }]).dpav_values, v ≤ m) ∧
          (create_comparison_plots
            [{ filepath := "battle_summaries/SUMMARY_Acheron_MoC_v1_20240115_143022.json"
               session_id := "Acheron [MoC] - 2024-01-15 14:30:22"
               timestamp := "20240115143022"
               total_dpav := 3500
               total_av := 150 }]).dpav_ylim_top = some (m * (13 / 10 : Rat)))
      ∧ (List.Perm (create_comparison_plots
          [{ filepath := "battle_summaries/SUMMARY_Acheron_MoC_v1_20240115_143022.json"
             session_id := "Acheron [MoC] - 2024-01-15 14:30:22"
             timestamp := "20240115143022"
             total_dpav := 3500
             total_av := 150 }]).df_av_sorted
          [{ filepath := "battle_summaries/SUMMARY_Acheron_MoC_v1_20240115_143022.json"
             session_id := "Acheron [MoC] - 2024-01-15 14:30:22"
             timestamp := "20240115143022"
             total_dpav := 3500
             total_av := 150 }] ∧
        List.Pairwise avAsc (create_comparison_plots
          [{ filepath := "battle_summaries/SUMMARY_Acheron_MoC_v1_20240115_143022.json"
             session_id := "Acheron [MoC] - 2024-01-15 14:30:22"
             timestamp := "20240115143022"
             total_dpav := 3500
             total_av := 150 }]).df_av_sorted ∧
        (∃ best rest, (create_comparison_plots
            [{ filepath := "battle_summaries/SUMMARY_Acheron_MoC_v1_20240115_143022.json"
               session_id := "Acheron [MoC] - 2024-01-15 14:30:22"
               timestamp := "20240115143022"
               total_dpav := 3500
               total_av := 150 }]).df_av_sorted = best :: rest ∧
          (∀ r ∈ ([{ filepath := "battle_summaries/SUMMARY_Acheron_MoC_v1_20240115_143022.json"
                     session_id := "Acheron [MoC] - 2024-01-15 14:30:22"
                     timestamp := "20240115143022"
                     total_dpav := 3500
                     total_av := 150 }] : List SummaryRecord),
            best.total_av ≤ r.total_av) ∧
          (create_comparison_plots
            [{ filepath := "battle_summaries/SUMMARY_Acheron_MoC_v1_20240115_143022.json"
               session_id := "Acheron [MoC] - 2024-01-15 14:30:22"
               timestamp := "20240115143022"
               total_dpav := 3500
               total_av := 150 }]).av_colors.head? = some "limegreen") ∧
        ∃ m, m ∈ (create_comparison_plots
            [{ filepath := "battle_summaries/SUMMARY_Acheron_MoC_v1_20240115_143022.json"
               session_id := "Acheron [MoC] - 2024-01-15 14:30:22"
               timestamp := "20240115143022"
               total_dpav := 3500
               total_av := 150 }]).av_values ∧
          (∀ v ∈ (create_comparison_plots
              [{ filepath := "battle_summaries/SUMMARY_Acheron_MoC_v1_20240115_143022.json"
                 session_id := "Acheron [MoC] - 2024-01-15 14:30:22"
                 timestamp := "20240115143022"
                 total_dpav := 3500
                 total_av := 150 }]).av_values, v ≤ m) ∧
          (create_comparison_plots
            [{ filepath := "battle_summaries/SUMMARY_Acheron_MoC_v1_20240115_143022.json"
               session_id := "Acheron [MoC] - 2024-01-15 14:30:22"
               timestamp := "20240115143022"
               total_dpav := 3500
               total_av := 150 }]).av_ylim_top = some (m * (13 / 10 : Rat)))) :=
  ⟨by decide,
    C9_overview_views
      [{ filepath := "battle_summaries/SUMMARY_Acheron_MoC_v1_20240115_143022.json"
         session_id := "Acheron [MoC] - 2024-01-15 14:30:22"
         timestamp := "20240115143022"
         total_dpav := 3500
         total_av := 150 }] (by decide)⟩

end Analyzer
